import Mathlib

/-!
Shallow embedding of `waybar/scripts/weather.py`: the weather status-bar
provider (normalization of the OpenWeather JSON payload, template rendering,
and output writing), together with theorems checking the repository's
specification against this code.

Conventions of the embedding:
* Python machine floats from the JSON payload are modelled as exact rationals
  (`PyNum.float`); the payload values exercised here are exactly representable.
* Python exceptions that the script does not catch (`KeyError`, `IndexError`)
  are modelled by `Except.error`; an `Except.error` outcome means the cycle
  (and, in the real script, the whole process) aborts.
* Mutable attributes of the `Weather` object that persist across cycles are
  collected in `WeatherState` (`error`/`error_tooltip` as one optional pair,
  and the success attributes as one optional `Snapshot`).
-/

namespace weather

/-- A Python number from the JSON payload: `int` or `float`
(floats modelled as exact rationals). -/
inductive PyNum where
  | int (n : ℤ)
  | float (q : ℚ)
deriving DecidableEq, Repr

/-- Python truthiness of a number: zero is falsy. -/
def pyTruthy : PyNum → Bool
  | .int n => n != 0
  | .float q => q != 0

/-- Round-half-to-even to an integer, as Python's builtin `round` on exact
values. -/
def halfEvenRound (q : ℚ) : ℤ :=
  let f : ℤ := q.floor
  let r : ℚ := q - (f : ℚ)
  if r < 1/2 then f
  else if 1/2 < r then f + 1
  else if f % 2 = 0 then f else f + 1

/-- Python `round(x, ndigits=1)`: an `int` is returned unchanged, a `float`
is rounded to one decimal and stays a `float`. -/
def pyRound1 : PyNum → PyNum
  | .int n => .int n
  | .float q => .float ((halfEvenRound (q * 10) : ℚ) / 10)

/-- Python `round(x)` (no `ndigits`): always returns an `int`. -/
def pyRound0 : PyNum → ℤ
  | .int n => n
  | .float q => halfEvenRound q

/-- Python `repr`/`str` of a float whose value has at most one decimal digit
(every float formatted by the script went through `round(·, ndigits=1)`):
always shows exactly one digit after the point, e.g. `5.0`, `-0.5`. -/
def formatFloat1 (q : ℚ) : String :=
  let sign := if q < 0 then "-" else ""
  let t : ℤ := (|q| * 10).floor
  sign ++ toString (t / 10) ++ "." ++ toString (t % 10)

/-- Python `f"{x}"` on a number (floats only after one-decimal rounding). -/
def showPyNum : PyNum → String
  | .int n => toString n
  | .float q => formatFloat1 q

/-- `class Unit(Enum)`: the three unit systems. -/
inductive Unit where
  | standard
  | metric
  | imperial
deriving DecidableEq, Repr

/-- Two-digit zero-padded rendering of a (nonnegative) field of a time. -/
def pad2 (n : ℤ) : String := if n < 10 then "0" ++ toString n else toString n

/-- `datetime.fromtimestamp(dt).strftime("%H:%M")`, modelled in UTC
(the script uses the local timezone, which is environment-dependent). -/
def strftimeHM (t : ℤ) : String :=
  pad2 ((t.fdiv 3600).fmod 24) ++ ":" ++ pad2 ((t.fdiv 60).fmod 60)

/-- Helper for `pyTitle`: the flag records whether the previous character was
a letter. -/
def titleChars : Bool → List Char → List Char
  | _, [] => []
  | prev, c :: rest =>
    if c.isAlpha then
      (if prev then c.toLower else c.toUpper) :: titleChars true rest
    else c :: titleChars false rest

/-- Python `str.title()` (on ASCII text, which is what the API descriptions
use): first letter of each word upper-cased, the rest lower-cased. -/
def pyTitle (s : String) : String := ⟨titleChars false s.data⟩

/-- The 8-entry arrow-glyph list indexed by the wind-direction bucket
(source lines 87–96). -/
def windDirectionIcons : List String := ["↑", "↗", "→", "↘", "↓", "↙", "←", "↖"]

/-- The 8-entry compass-name list indexed by the wind-direction bucket
(source lines 97–106). -/
def windDirectionTexts : List String := ["N", "NE", "E", "SE", "S", "SW", "W", "NW"]

/-- The dict literal mapping condition categories to glyphs
(source lines 116–123); the glyphs are nerd-font private-use codepoints. -/
def conditionIconTable : List (String × String) :=
  [("Thunderstorm", ""),
   ("Drizzle", ""),
   ("Rain", ""),
   ("Snow", ""),
   ("Clear", ""),
   ("Clouds", "")]

/-- Python list indexing `l[i]`: nonnegative indices from the front, negative
indices from the back, `IndexError` when out of range. -/
def pyIndex {α : Type} (l : List α) (i : ℤ) : Except String α :=
  if 0 ≤ i then
    if h : i.toNat < l.length then .ok (l.get ⟨i.toNat, h⟩)
    else .error "IndexError"
  else
    if 0 ≤ i + (l.length : ℤ) then
      if h : (i + (l.length : ℤ)).toNat < l.length then
        .ok (l.get ⟨(i + (l.length : ℤ)).toNat, h⟩)
      else .error "IndexError"
    else .error "IndexError"

/-- The wind-direction bucket `self.wind_direction // 45 % 8` with Python's
floor division and sign-of-divisor modulo (source lines 96 and 106). -/
def bucket (d : ℤ) : ℤ := (d.fdiv 45).fmod 8

/-- The fields of the raw JSON document that `get_weather` reads. `message`
is optional because the script indexes `raw_data['message']` directly and a
missing key is a `KeyError`; `wind.gust` is optional because the script
guards that lookup with `try/except KeyError`. The status code `cod` is
modelled as an integer (the script only compares it with `200` and
stringifies it). `weather_main`/`weather_description` stand for
`raw_data["weather"][0]["main"]`/`["description"]`. -/
structure RawDoc where
  cod : ℤ
  message : Option String
  name : String
  dt : ℤ
  temp : PyNum
  feels_like : PyNum
  temp_min : PyNum
  temp_max : PyNum
  humidity : PyNum
  wind_speed : PyNum
  wind_deg : ℤ
  wind_gust : Option PyNum
  weather_main : String
  weather_description : String
deriving DecidableEq, Repr

/-- The success attributes that `get_weather` assigns on a `cod == 200`
document (source lines 69–124). -/
structure Snapshot where
  city : String
  datetime : String
  temperature : PyNum
  temperature_feel : PyNum
  temperature_min : PyNum
  temperature_max : PyNum
  temperature_unit : String
  wind_speed : PyNum
  wind_direction : ℤ
  wind_direction_icon : String
  wind_direction_text : String
  wind_gust : Option PyNum
  wind_unit : String
  weather : String
  weather_desc : String
  weather_humid : PyNum
  weather_icon : String
  weather_unit : String
deriving DecidableEq, Repr

/-- The mutable state of the `Weather` object that survives across cycles:
the `error`/`error_tooltip` pair (set by `request` and by the non-200 branch
of `get_weather`, and never reset), and the snapshot attributes. -/
structure WeatherState where
  error : Option (String × String)
  snap : Option Snapshot
deriving DecidableEq, Repr

/-- Initial state: `self.error = None` and no snapshot attributes yet. -/
def initState : WeatherState := { error := none, snap := none }

/-- Truthiness of `self.error` (`None` or a string; all error strings the
script assigns are nonempty). -/
def errTruthy : Option (String × String) → Bool
  | none => false
  | some (e, _) => e != ""

/-- The temperature-unit chain of `if/elif` on `self.units`
(source lines 77–84; the final `else` branch is unreachable for the
three-member enum). -/
def temperatureUnitOf : Unit → String
  | .metric => "°C"
  | .imperial => "°F"
  | .standard => " K"

/-- `Weather.get_weather(self, raw_data)` (source lines 65–128).
`raw = none` models a falsy `raw_data` (the `None` returned by a failed
`request`): the body is skipped and the state is unchanged. On a `cod == 200`
document the snapshot attributes are assigned — note that `self.error` is
NOT cleared. On a non-200 document the error pair is assigned; indexing
`raw_data['message']` on a document without that key raises `KeyError`.
An unrecognized condition category makes the dict lookup on line 116 raise
`KeyError`. -/
def get_weather (units : Unit) (raw : Option RawDoc) (st : WeatherState) :
    Except String WeatherState :=
  match raw with
  | none => .ok st
  | some d =>
    if d.cod = 200 then
      match pyIndex windDirectionIcons (bucket d.wind_deg) with
      | .error e => .error e
      | .ok dirIcon =>
        match pyIndex windDirectionTexts (bucket d.wind_deg) with
        | .error e => .error e
        | .ok dirText =>
          match List.lookup d.weather_main conditionIconTable with
          | none => .error ("KeyError: " ++ d.weather_main)
          | some icon =>
            .ok { st with snap := some {
              city := d.name
              datetime := strftimeHM d.dt
              temperature := d.temp
              temperature_feel := d.feels_like
              temperature_min := d.temp_min
              temperature_max := d.temp_max
              temperature_unit := temperatureUnitOf units
              wind_speed := d.wind_speed
              wind_direction := d.wind_deg
              wind_direction_icon := dirIcon
              wind_direction_text := dirText
              wind_gust := d.wind_gust
              wind_unit := "m/s"
              weather := d.weather_main
              weather_desc := d.weather_description
              weather_humid := d.humidity
              weather_icon := icon
              weather_unit := "%" } }
    else
      match d.message with
      | none => .error "KeyError: message"
      | some m =>
        .ok { st with error := some ("Error: " ++ toString d.cod,
          if m ≠ "" then m else "Something went wrong") }

/-- Outcome of the `requests.get(...).json()` call inside `Weather.request`:
either a parsed document or one of the four caught exception classes
(source lines 44–63). -/
inductive FetchResult where
  | ok (doc : RawDoc)
  | httpError (msg : String)
  | connectionError (msg : String)
  | timeoutError (msg : String)
  | requestError (msg : String)
deriving DecidableEq, Repr

/-- `Weather.request` (source lines 44–63): on success the parsed document is
returned; on a caught exception the error pair is assigned and `None` is
returned. -/
def request (fr : FetchResult) (st : WeatherState) : Option RawDoc × WeatherState :=
  match fr with
  | .ok doc => (some doc, st)
  | .httpError m => (none, { st with error := some ("Http Error", m) })
  | .connectionError m => (none, { st with error := some ("Connection Error", m) })
  | .timeoutError m => (none, { st with error := some ("Timeout Error", m) })
  | .requestError m => (none, { st with error := some ("Error", m) })

/-- `Weather.refresh` (source lines 130–131): `self.get_weather(self.request())`. -/
def refresh (units : Unit) (fr : FetchResult) (st : WeatherState) :
    Except String WeatherState :=
  let (raw, st1) := request fr st
  get_weather units raw st1

/-- Does the pattern match at the head of the text? (Empty pattern always
matches.) -/
def startsWith : List Char → List Char → Bool
  | [], _ => true
  | _ :: _, [] => false
  | a :: pat, b :: s => a = b && startsWith pat s

/-- Does the pattern occur anywhere in the text? (Empty pattern always
occurs.) -/
def occursIn (pat : List Char) : List Char → Bool
  | [] => startsWith pat []
  | c :: rest => startsWith pat (c :: rest) || occursIn pat rest

/-- Worker for `replaceAll`: a structural left-to-right scan. A positive
`skip` means the scanner is still consuming the tail of an occurrence that
was already matched and replaced; at `skip = 0` it tests for a match at the
current position. -/
def replaceAllGo (old new : List Char) : ℕ → List Char → List Char
  | _, [] => []
  | skip+1, _ :: rest => replaceAllGo old new skip rest
  | 0, c :: rest =>
    if startsWith old (c :: rest) then
      new ++ replaceAllGo old new (old.length - 1) rest
    else c :: replaceAllGo old new 0 rest

/-- Python `str.replace(old, new)`: scan left to right, replacing each
leftmost non-overlapping occurrence of `old` by `new`. The script only calls
this with nonempty `old` (the placeholder tokens); for an empty `old` the
text is returned unchanged. -/
def replaceAll (old new s : List Char) : List Char :=
  match old with
  | [] => s
  | _ :: _ => replaceAllGo old new 0 s

/-- Worker for `pySplit`, with the same skip discipline as `replaceAllGo`. -/
def pySplitGo (old : List Char) : ℕ → List Char → List (List Char)
  | _, [] => [[]]
  | skip+1, _ :: rest => pySplitGo old skip rest
  | 0, c :: rest =>
    if startsWith old (c :: rest) then
      [] :: pySplitGo old (old.length - 1) rest
    else
      match pySplitGo old 0 rest with
      | [] => [[c]]
      | seg :: segs => (c :: seg) :: segs

/-- The segments of the text between the leftmost non-overlapping occurrences
of the pattern, in order (the decomposition that `replaceAll` rejoins with
the replacement). -/
def pySplit (old : List Char) (s : List Char) : List (List Char) :=
  match old with
  | [] => [s]
  | _ :: _ => pySplitGo old 0 s

/-- Join a list of segments with a separator. -/
def joinWith (sep : List Char) : List (List Char) → List Char
  | [] => []
  | [x] => x
  | x :: y :: t => x ++ sep ++ joinWith sep (y :: t)

/-- `str.replace` lifted to `String`. -/
def strReplace (s old new : String) : String :=
  ⟨replaceAll old.data new.data s.data⟩

/-- The `format_options` dict of `Weather.print` (source lines 169–187), in
its (insertion-order) iteration order. Every numeric value is rendered by
appending the unit symbol directly to the rounded number; the wind-gust
entry is the empty string when `self.wind_gust` is falsy (`None` or zero). -/
def format_options (s : Snapshot) : List (String × String) :=
  [("{city}", s.city),
   ("{humidity}", showPyNum (pyRound1 s.weather_humid) ++ s.weather_unit),
   ("{temperature}", showPyNum (pyRound1 s.temperature) ++ s.temperature_unit),
   ("{temperatureFeel}", showPyNum (pyRound1 s.temperature_feel) ++ s.temperature_unit),
   ("{temperatureMin}", showPyNum (pyRound1 s.temperature_min) ++ s.temperature_unit),
   ("{temperatureMax}", showPyNum (pyRound1 s.temperature_max) ++ s.temperature_unit),
   ("{time}", s.datetime),
   ("{weather}", s.weather),
   ("{weatherIcon}", s.weather_icon),
   ("{weatherDesc}", pyTitle s.weather_desc),
   ("{windDirection}", toString s.wind_direction),
   ("{windDirectionIcon}", s.wind_direction_icon),
   ("{windDirectionText}", s.wind_direction_text),
   ("{windSpeed}", toString (pyRound0 s.wind_speed) ++ s.wind_unit),
   ("{windGust}",
     match s.wind_gust with
     | some g => if pyTruthy g then toString (pyRound0 g) ++ s.wind_unit else ""
     | none => "")]

/-- The replacement loop of `Weather.print` (source lines 188–196) applied to
one template string: fold `str.replace` over the `format_options` entries in
dict order. (The `except AttributeError: pass` in the source only fires when
a template is not a string; templates here are strings.) -/
def renderTemplate (s : Snapshot) (tpl : String) : String :=
  (format_options s).foldl (fun acc p => strReplace acc p.1 p.2) tpl

/-- One lowercase hexadecimal digit. -/
def hexDigit (d : ℕ) : Char :=
  if d < 10 then Char.ofNat (48 + d) else Char.ofNat (87 + d)

/-- Four lowercase hexadecimal digits. -/
def hex4 (n : ℕ) : String :=
  ⟨[hexDigit (n / 4096 % 16), hexDigit (n / 256 % 16),
    hexDigit (n / 16 % 16), hexDigit (n % 16)]⟩

/-- `json.dumps` escaping of one character with the default
`ensure_ascii=True`: the two-character escapes for the common control
characters, backslash and quote, and `\uXXXX` escapes (surrogate pairs above
the basic plane) for every character outside printable ASCII. -/
def jsonEscChar (c : Char) : String :=
  if c = '\\' then "\\\\"
  else if c = '"' then "\\\""
  else if c = '\n' then "\\n"
  else if c = '\r' then "\\r"
  else if c = '\t' then "\\t"
  else if c.toNat = 8 then "\\b"
  else if c.toNat = 12 then "\\f"
  else if c.toNat < 32 ∨ 126 < c.toNat then
    if c.toNat ≤ 65535 then "\\u" ++ hex4 c.toNat
    else
      let v := c.toNat - 65536
      "\\u" ++ hex4 (55296 + v / 1024) ++ "\\u" ++ hex4 (56320 + v % 1024)
  else String.singleton c

/-- A JSON string literal as `json.dumps` renders it. -/
def jsonString (s : String) : String :=
  "\"" ++ String.join (s.data.map jsonEscChar) ++ "\""

/-- `json.dumps({"text": text, "tooltip": tooltip})` with the default
separators. -/
def jsonDumpsTextTooltip (text tooltip : String) : String :=
  "\x7b\"text\": " ++ jsonString text ++ ", \"tooltip\": " ++ jsonString tooltip ++ "\x7d"

/-- `Weather.print` (source lines 133–212), returning the list of emissions
(one element per Python `print` call; `print(a, b)` joins with a space and
`print(a, b, sep="\n")` with a newline). `out_format = true` is text mode,
`false` is json mode. In the error branch of json mode the source makes TWO
`print` calls: the json object and then a plain-text copy (lines 147–154);
the dangling `else` on lines 156–166 is unreachable. Reading the snapshot
attributes before any success ever stored them would be an
`AttributeError` (never reached from `main`). -/
def printWeather (st : WeatherState) (out_format : Bool)
    (title_format text_format : String) : Except String (List String) :=
  if errTruthy st.error then
    match st.error with
    | none => .error "unreachable"
    | some (e, tt) =>
      if out_format then .ok [e ++ " " ++ tt]
      else .ok [jsonDumpsTextTooltip e tt, e ++ " " ++ tt]
  else
    match st.snap with
    | none => .error "AttributeError"
    | some s =>
      let text := renderTemplate s title_format
      let tooltip := renderTemplate s text_format
      if out_format then .ok [text ++ "\n" ++ tooltip]
      else .ok [jsonDumpsTextTooltip text tooltip]

/-- One iteration of the `while True` loop in `main` (source lines 321–330):
`refresh` then `print`, yielding the emissions of this cycle and the state
carried into the next cycle. -/
def runCycle (units : Unit) (out_format : Bool) (title_format text_format : String)
    (fr : FetchResult) (st : WeatherState) :
    Except String (List String × WeatherState) :=
  match refresh units fr st with
  | .error e => .error e
  | .ok st1 =>
    match printWeather st1 out_format title_format text_format with
    | .error e => .error e
    | .ok ems => .ok (ems, st1)

/-! ### Lemmas about the scanning replacement -/

theorem startsWith_of_append {pat a : List Char} (b : List Char)
    (h : startsWith pat a = true) : startsWith pat (a ++ b) = true := by
  induction pat generalizing a with
  | nil => rfl
  | cons p ps ih =>
    cases a with
    | nil => simp [startsWith] at h
    | cons x xs =>
      simp only [startsWith, Bool.and_eq_true] at h
      simp only [List.cons_append, startsWith, Bool.and_eq_true]
      exact ⟨h.1, ih h.2⟩

theorem startsWith_drop {pat s : List Char} (h : startsWith pat s = true) :
    s = pat ++ s.drop pat.length := by
  induction pat generalizing s with
  | nil => simp
  | cons p ps ih =>
    cases s with
    | nil => simp [startsWith] at h
    | cons c rest =>
      simp only [startsWith, Bool.and_eq_true, decide_eq_true_eq] at h
      obtain ⟨rfl, h2⟩ := h
      simpa using ih h2

theorem replaceAllGo_skip (old new : List Char) :
    ∀ (s : List Char) (k : ℕ),
      replaceAllGo old new k s = replaceAllGo old new 0 (s.drop k) := by
  intro s
  induction s with
  | nil => intro k; cases k <;> rfl
  | cons c rest ih =>
    intro k
    cases k with
    | zero => rfl
    | succ k => exact ih k

theorem pySplitGo_skip (old : List Char) :
    ∀ (s : List Char) (k : ℕ), pySplitGo old k s = pySplitGo old 0 (s.drop k) := by
  intro s
  induction s with
  | nil => intro k; cases k <;> rfl
  | cons c rest ih =>
    intro k
    cases k with
    | zero => rfl
    | succ k => exact ih k

/-- The textbook recursion of the scan, recovered from the worker. -/
theorem replaceAll_cons (o : Char) (os new : List Char) (c : Char) (rest : List Char) :
    replaceAll (o :: os) new (c :: rest) =
      if startsWith (o :: os) (c :: rest) then
        new ++ replaceAll (o :: os) new (rest.drop os.length)
      else c :: replaceAll (o :: os) new rest := by
  show replaceAllGo (o :: os) new 0 (c :: rest) = _
  rw [replaceAllGo]
  by_cases hm : startsWith (o :: os) (c :: rest) = true
  · rw [if_pos hm, if_pos hm, replaceAllGo_skip]
    rfl
  · rw [if_neg hm, if_neg hm]
    rfl

/-- The textbook recursion of the splitter, recovered from the worker. -/
theorem pySplit_cons (o : Char) (os : List Char) (c : Char) (rest : List Char) :
    pySplit (o :: os) (c :: rest) =
      if startsWith (o :: os) (c :: rest) then
        [] :: pySplit (o :: os) (rest.drop os.length)
      else
        match pySplit (o :: os) rest with
        | [] => [[c]]
        | seg :: segs => (c :: seg) :: segs := by
  show pySplitGo (o :: os) 0 (c :: rest) = _
  rw [pySplitGo]
  by_cases hm : startsWith (o :: os) (c :: rest) = true
  · rw [if_pos hm, if_pos hm, pySplitGo_skip]
    rfl
  · rw [if_neg hm, if_neg hm]
    rfl

theorem replaceAll_no_occ {old : List Char} (new : List Char) :
    ∀ {s : List Char}, occursIn old s = false → replaceAll old new s = s := by
  intro s
  induction s with
  | nil =>
    intro h
    cases old with
    | nil => simp [occursIn, startsWith] at h
    | cons o os => rfl
  | cons c rest ih =>
    intro h
    cases old with
    | nil => simp [occursIn, startsWith] at h
    | cons o os =>
      simp only [occursIn, Bool.or_eq_false_iff] at h
      rw [replaceAll_cons, if_neg (by simp [h.1]), ih h.2]

theorem pySplit_ne_nil (old s : List Char) : pySplit old s ≠ [] := by
  cases old with
  | nil => simp [pySplit]
  | cons o os =>
    show pySplitGo (o :: os) 0 s ≠ []
    generalize 0 = k
    induction s generalizing k with
    | nil => cases k <;> simp [pySplitGo]
    | cons c rest ih =>
      cases k with
      | succ k => exact ih k
      | zero =>
        rw [pySplitGo]
        by_cases hm : startsWith (o :: os) (c :: rest) = true
        · simp [hm]
        · rw [if_neg hm]
          split <;> simp

theorem pySplit_head_append (o : Char) (os : List Char) :
    ∀ (n : ℕ) (s : List Char), s.length ≤ n →
      ∀ seg segs, pySplit (o :: os) s = seg :: segs → ∃ t, s = seg ++ t := by
  intro n
  induction n with
  | zero =>
    intro s hs seg segs h
    rw [List.length_eq_zero.mp (Nat.le_zero.mp hs)] at h ⊢
    rw [show pySplit (o :: os) [] = [[]] from rfl] at h
    cases h
    exact ⟨[], rfl⟩
  | succ n ih =>
    intro s hs seg segs h
    cases s with
    | nil =>
      rw [show pySplit (o :: os) [] = [[]] from rfl] at h
      cases h
      exact ⟨[], rfl⟩
    | cons c rest =>
      rw [pySplit_cons] at h
      by_cases hm : startsWith (o :: os) (c :: rest) = true
      · rw [if_pos hm] at h
        cases h
        exact ⟨c :: rest, rfl⟩
      · rw [if_neg hm] at h
        obtain ⟨sg, sgs, hcons⟩ := List.exists_cons_of_ne_nil (pySplit_ne_nil (o :: os) rest)
        rw [hcons] at h
        have h' : (c :: sg) :: sgs = seg :: segs := h
        injection h' with h1 h2
        obtain ⟨t, ht⟩ := ih rest (by simpa using hs) _ _ hcons
        refine ⟨t, ?_⟩
        rw [← h1, ht]
        rfl

theorem joinWith_pySplit (old s : List Char) (hne : old ≠ []) :
    joinWith old (pySplit old s) = s := by
  obtain ⟨o, os, rfl⟩ : ∃ o os, old = o :: os := by
    cases old with
    | nil => exact absurd rfl hne
    | cons o os => exact ⟨o, os, rfl⟩
  clear hne
  suffices H : ∀ (n : ℕ) (s : List Char), s.length ≤ n →
      joinWith (o :: os) (pySplit (o :: os) s) = s from H s.length s le_rfl
  intro n
  induction n with
  | zero =>
    intro s hs
    rw [List.length_eq_zero.mp (Nat.le_zero.mp hs)]
    rfl
  | succ n ih =>
    intro s hs
    cases s with
    | nil => rfl
    | cons c rest =>
      rw [pySplit_cons]
      by_cases hm : startsWith (o :: os) (c :: rest) = true
      · rw [if_pos hm]
        obtain ⟨seg, segs, ht⟩ := List.exists_cons_of_ne_nil
          (pySplit_ne_nil (o :: os) (rest.drop os.length))
        rw [ht]
        have hrec := ih (rest.drop os.length)
          (by simp only [List.length_drop]; simp at hs; omega)
        rw [ht] at hrec
        show [] ++ (o :: os) ++ joinWith (o :: os) (seg :: segs) = c :: rest
        rw [List.nil_append, hrec]
        have := startsWith_drop hm
        simpa using this.symm
      · rw [if_neg hm]
        obtain ⟨sg, sgs, hcons⟩ := List.exists_cons_of_ne_nil (pySplit_ne_nil (o :: os) rest)
        rw [hcons]
        have hrec := ih rest (by simpa using hs)
        rw [hcons] at hrec
        cases sgs with
        | nil =>
          show c :: sg = c :: rest
          simpa [joinWith] using hrec
        | cons y t =>
          show (c :: sg) ++ (o :: os) ++ joinWith (o :: os) (y :: t) = c :: rest
          have hr : sg ++ (o :: os) ++ joinWith (o :: os) (y :: t) = rest := hrec
          simp only [List.cons_append]
          rw [← hr]

theorem replaceAll_eq_joinWith (old new s : List Char) (hne : old ≠ []) :
    replaceAll old new s = joinWith new (pySplit old s) := by
  obtain ⟨o, os, rfl⟩ : ∃ o os, old = o :: os := by
    cases old with
    | nil => exact absurd rfl hne
    | cons o os => exact ⟨o, os, rfl⟩
  clear hne
  suffices H : ∀ (n : ℕ) (s : List Char), s.length ≤ n →
      replaceAll (o :: os) new s = joinWith new (pySplit (o :: os) s) from
    H s.length s le_rfl
  intro n
  induction n with
  | zero =>
    intro s hs
    rw [List.length_eq_zero.mp (Nat.le_zero.mp hs)]
    rfl
  | succ n ih =>
    intro s hs
    cases s with
    | nil => rfl
    | cons c rest =>
      rw [pySplit_cons, replaceAll_cons]
      by_cases hm : startsWith (o :: os) (c :: rest) = true
      · rw [if_pos hm, if_pos hm]
        obtain ⟨seg, segs, ht⟩ := List.exists_cons_of_ne_nil
          (pySplit_ne_nil (o :: os) (rest.drop os.length))
        rw [ht]
        have hrec := ih (rest.drop os.length)
          (by simp only [List.length_drop]; simp at hs; omega)
        rw [ht] at hrec
        show new ++ replaceAll (o :: os) new (rest.drop os.length) =
          [] ++ new ++ joinWith new (seg :: segs)
        rw [hrec]
        simp
      · rw [if_neg hm, if_neg hm]
        obtain ⟨sg, sgs, hcons⟩ := List.exists_cons_of_ne_nil (pySplit_ne_nil (o :: os) rest)
        rw [hcons]
        have hrec := ih rest (by simpa using hs)
        rw [hcons] at hrec
        cases sgs with
        | nil =>
          show c :: replaceAll (o :: os) new rest = c :: sg
          simpa [joinWith] using hrec
        | cons y t =>
          show c :: replaceAll (o :: os) new rest = (c :: sg) ++ new ++ joinWith new (y :: t)
          rw [hrec]
          simp [joinWith, List.append_assoc]

theorem pySplit_no_occ (old s : List Char) (hne : old ≠ []) :
    ∀ seg ∈ pySplit old s, occursIn old seg = false := by
  obtain ⟨o, os, rfl⟩ : ∃ o os, old = o :: os := by
    cases old with
    | nil => exact absurd rfl hne
    | cons o os => exact ⟨o, os, rfl⟩
  clear hne
  suffices H : ∀ (n : ℕ) (s : List Char), s.length ≤ n →
      ∀ seg ∈ pySplit (o :: os) s, occursIn (o :: os) seg = false from
    H s.length s le_rfl
  intro n
  induction n with
  | zero =>
    intro s hs seg hseg
    rw [List.length_eq_zero.mp (Nat.le_zero.mp hs)] at hseg
    rw [show pySplit (o :: os) [] = [[]] from rfl] at hseg
    simp only [List.mem_singleton] at hseg
    subst hseg
    rfl
  | succ n ih =>
    intro s hs seg hseg
    cases s with
    | nil =>
      rw [show pySplit (o :: os) [] = [[]] from rfl] at hseg
      simp only [List.mem_singleton] at hseg
      subst hseg
      rfl
    | cons c rest =>
      rw [pySplit_cons] at hseg
      by_cases hm : startsWith (o :: os) (c :: rest) = true
      · rw [if_pos hm] at hseg
        simp only [List.mem_cons] at hseg
        rcases hseg with rfl | hseg
        · rfl
        · exact ih (rest.drop os.length)
            (by simp only [List.length_drop]; simp at hs; omega) seg hseg
      · rw [if_neg hm] at hseg
        obtain ⟨sg, sgs, hcons⟩ := List.exists_cons_of_ne_nil (pySplit_ne_nil (o :: os) rest)
        rw [hcons] at hseg
        simp only [List.mem_cons] at hseg
        rcases hseg with rfl | hseg
        · show occursIn (o :: os) (c :: sg) = false
          rw [occursIn]
          have h1 : occursIn (o :: os) sg = false :=
            ih rest (by simpa using hs) sg (by rw [hcons]; simp)
          have h2 : startsWith (o :: os) (c :: sg) = false := by
            by_contra hc
            rw [Bool.not_eq_false] at hc
            obtain ⟨t, ht⟩ := pySplit_head_append o os rest.length rest le_rfl sg sgs hcons
            have hsw : startsWith (o :: os) (c :: rest) = true := by
              have hr : c :: rest = (c :: sg) ++ t := by rw [ht]; rfl
              rw [hr]
              exact startsWith_of_append t hc
            simp [hsw] at hm
          rw [h1, h2]
          rfl
        · exact ih rest (by simpa using hs) seg (by rw [hcons]; simp [hseg])

theorem strReplace_no_occ {tpl old : String} (new : String)
    (h : occursIn old.data tpl.data = false) : strReplace tpl old new = tpl := by
  unfold strReplace
  rw [replaceAll_no_occ new.data h]

theorem foldl_replace_id (ps : List (String × String)) (tpl : String)
    (h : ∀ p ∈ ps, occursIn p.1.data tpl.data = false) :
    ps.foldl (fun acc p => strReplace acc p.1 p.2) tpl = tpl := by
  induction ps with
  | nil => rfl
  | cons p ps ih =>
    simp only [List.foldl_cons]
    rw [strReplace_no_occ p.2 (h p (by simp))]
    exact ih fun q hq => h q (by simp [hq])

/-! ### Lemmas about the wind-direction bucket -/

theorem bucket_eq_ediv_emod (d : ℤ) : bucket d = (d / 45) % 8 := by
  unfold bucket
  rw [Int.fdiv_eq_ediv _ (by decide), Int.fmod_eq_emod _ (by decide)]

theorem bucket_nonneg (d : ℤ) : 0 ≤ bucket d := by
  rw [bucket_eq_ediv_emod]
  exact Int.emod_nonneg _ (by decide)

theorem bucket_lt_eight (d : ℤ) : bucket d < 8 := by
  rw [bucket_eq_ediv_emod]
  exact Int.emod_lt_of_pos _ (by decide)

theorem bucket_add_360 (d : ℤ) : bucket (d + 360) = bucket d := by
  rw [bucket_eq_ediv_emod, bucket_eq_ediv_emod]
  omega

theorem pyIndex_bucket_ok {α : Type} (l : List α) (d : ℤ) (hl : l.length = 8) :
    ∃ h : (bucket d).toNat < l.length,
      pyIndex l (bucket d) = .ok (l.get ⟨(bucket d).toNat, h⟩) := by
  have h0 := bucket_nonneg d
  have h8 := bucket_lt_eight d
  have hlt : (bucket d).toNat < l.length := by omega
  refine ⟨hlt, ?_⟩
  unfold pyIndex
  rw [if_pos h0, dif_pos hlt]

/-! ### Concrete inputs used by the claim theorems -/

/-- A well-formed success document: status 200, temperature 5 (an int, as
the JSON number `5` parses in Python), bearing 90, no gust, category
`Clear`, empty `message`. -/
def goodDoc : RawDoc :=
  { cod := 200, message := some "", name := "Town", dt := 0,
    temp := .int 5, feels_like := .int 4, temp_min := .int 3, temp_max := .int 6,
    humidity := .int 80, wind_speed := .int 3, wind_deg := 90, wind_gust := none,
    weather_main := "Clear", weather_description := "clear sky" }

/-- The snapshot `get_weather` builds from `goodDoc` with Metric units. -/
def snapGood : Snapshot :=
  { city := "Town", datetime := "00:00",
    temperature := .int 5, temperature_feel := .int 4,
    temperature_min := .int 3, temperature_max := .int 6,
    temperature_unit := "°C",
    wind_speed := .int 3, wind_direction := 90,
    wind_direction_icon := "→", wind_direction_text := "E",
    wind_gust := none, wind_unit := "m/s",
    weather := "Clear", weather_desc := "clear sky",
    weather_humid := .int 80, weather_icon := "", weather_unit := "%" }

/-- The state after a cycle whose fetch raised a Timeout. -/
def timeoutState : WeatherState :=
  { error := some ("Timeout Error", "timed out"), snap := none }

/-! ### Claim theorems -/

/-- C1: the spec requires exactly one JSON line per cycle in json mode, the
`\x7btext, tooltip\x7d` object being the only emission even for an error cycle. The
code violates this (source lines 147–154): evaluated at a failing input — a
Timeout transport failure in json mode — the cycle emits the JSON object AND
a second plain-text copy of the error, two emissions instead of one. -/
theorem c1_json_mode_error_cycle_emits_two_lines :
    runCycle Unit.metric false "{temperature}" "{city}"
        (.timeoutError "timed out") initState =
      .ok (["\x7b\"text\": \"Timeout Error\", \"tooltip\": \"timed out\"\x7d",
            "Timeout Error timed out"], timeoutState) := by
  rfl

/-- C3 (as the spec intends it): after an error cycle, a next cycle whose
fetch and normalization succeed should render the fresh snapshot. The code
violates this: `self.error` is never reset, so the successful second cycle
stores the snapshot (first conjunct: `refresh` succeeds and fills `snap`)
yet still prints the previous cycle's Timeout error (second conjunct),
instead of the snapshot rendering (third conjunct shows what a clean state
would have printed). -/
theorem c3_stale_error_shadows_successful_cycle :
    refresh Unit.metric (.ok goodDoc) timeoutState =
      .ok { error := some ("Timeout Error", "timed out"), snap := some snapGood } ∧
    runCycle Unit.metric false "{temperature}" "{city}" (.ok goodDoc) timeoutState =
      .ok (["\x7b\"text\": \"Timeout Error\", \"tooltip\": \"timed out\"\x7d",
            "Timeout Error timed out"],
           { error := some ("Timeout Error", "timed out"), snap := some snapGood }) ∧
    printWeather { error := none, snap := some snapGood } false "{temperature}" "{city}" =
      .ok ["\x7b\"text\": \"5\\u00b0C\", \"tooltip\": \"Town\"\x7d"] := by
  exact ⟨rfl, rfl, rfl⟩

/-- C2 counterexample: a success-status document whose category `Tornado`
is outside the closed set does NOT yield an `ErrorState` — normalization
aborts with an unhandled `KeyError` from the icon-dict lookup
(source line 116), so the claim's "never aborts the cycle with an unhandled
failure" is false at this input. -/
theorem c2_unknown_condition_aborts_with_keyerror :
    get_weather Unit.metric
        (some { goodDoc with weather_main := "Tornado", weather_description := "tornado" })
        initState = .error "KeyError: Tornado" ∧
    List.lookup "Tornado" conditionIconTable = none := by
  exact ⟨rfl, rfl⟩

/-- C2 amended: for every success-status document whose condition category
is outside the closed icon table, normalization never substitutes a fallback
icon and never returns an error state — it raises an unhandled `KeyError`
(aborting the cycle). -/
theorem c2_amended_unknown_condition_raises (units : Unit) (d : RawDoc)
    (st : WeatherState) (h200 : d.cod = 200)
    (hunk : List.lookup d.weather_main conditionIconTable = none) :
    get_weather units (some d) st = .error ("KeyError: " ++ d.weather_main) := by
  obtain ⟨hi, hicon⟩ := pyIndex_bucket_ok windDirectionIcons d.wind_deg rfl
  obtain ⟨ht, htext⟩ := pyIndex_bucket_ok windDirectionTexts d.wind_deg rfl
  simp only [get_weather, if_pos h200, hicon, htext, hunk]

/-- C2 amended, witness at the concrete category `Mist`. -/
theorem c2_amended_unknown_condition_raises_witness :
    get_weather Unit.metric (some { goodDoc with weather_main := "Mist" }) initState =
      .error "KeyError: Mist" :=
  c2_amended_unknown_condition_raises Unit.metric _ initState rfl rfl

/-- C5 counterexample: a non-success document WITHOUT a `message` field does
not get the fixed fallback detail — the unguarded `raw_data['message']`
lookup (source line 128) raises `KeyError`, so the claim's "a fixed fallback
text when the message is absent" is false at this input. -/
theorem c5_absent_message_is_keyerror_not_fallback :
    get_weather Unit.metric (some { goodDoc with cod := 404, message := none })
      initState = .error "KeyError: message" := by
  rfl

/-- C5 amended: on a non-success status code, the error detail is the
document's `message` when that field is present and nonempty; the fixed
fallback `"Something went wrong"` when the field is present but empty
(falsy); and a document with the field absent crashes normalization with
`KeyError`. -/
theorem c5_amended_api_error_detail (units : Unit) (d : RawDoc)
    (st : WeatherState) (hcod : ¬ d.cod = 200) :
    (∀ m, d.message = some m → m ≠ "" →
      get_weather units (some d) st =
        .ok { st with error := some ("Error: " ++ toString d.cod, m) }) ∧
    (d.message = some "" →
      get_weather units (some d) st =
        .ok { st with error := some ("Error: " ++ toString d.cod,
          "Something went wrong") }) ∧
    (d.message = none → get_weather units (some d) st = .error "KeyError: message") := by
  refine ⟨?_, ?_, ?_⟩
  · intro m hm hne
    simp only [get_weather, if_neg hcod, hm, if_pos hne]
  · intro hm
    simp only [get_weather, if_neg hcod, hm]
    simp
  · intro hm
    simp only [get_weather, if_neg hcod, hm]

/-- C5 amended, witness: a 404 document with a nonempty message keeps that
message as the detail. -/
theorem c5_amended_api_error_detail_witness :
    get_weather Unit.metric
        (some { goodDoc with cod := 404, message := some "city not found" })
        initState =
      .ok { initState with error := some ("Error: 404", "city not found") } :=
  (c5_amended_api_error_detail Unit.metric _ initState (by decide)).1
    "city not found" rfl (by decide)

/-- C6: for bearings in [0, 360), the bucket is `floor(d / 45) mod 8`, is
invariant under `mod 360` and under adding 360, always lands in [0, 8), and
indexes the two fixed 8-entry tables, whose entries pair up 1:1 (compass
names with arrow glyphs, in the stated order, all entries distinct). -/
theorem c6_bucket_compass_tables (d : ℤ) (h0 : 0 ≤ d) (h1 : d < 360) :
    bucket d = (d / 45) % 8 ∧
    bucket (d % 360) = bucket d ∧
    bucket (d + 360) = bucket d ∧
    0 ≤ bucket d ∧ bucket d < 8 ∧
    windDirectionTexts.zip windDirectionIcons =
      [("N", "↑"), ("NE", "↗"), ("E", "→"), ("SE", "↘"),
       ("S", "↓"), ("SW", "↙"), ("W", "←"), ("NW", "↖")] ∧
    windDirectionTexts.Nodup ∧ windDirectionIcons.Nodup := by
  refine ⟨bucket_eq_ediv_emod d, ?_, bucket_add_360 d, bucket_nonneg d,
    bucket_lt_eight d, by decide, by decide, by decide⟩
  rw [Int.emod_eq_of_lt h0 h1]

/-- C6, witness at bearing 90. -/
theorem c6_bucket_compass_tables_witness :
    bucket 90 = (90 / 45) % 8 ∧ bucket (90 + 360) = bucket 90 :=
  ⟨(c6_bucket_compass_tables 90 (by decide) (by decide)).1,
   (c6_bucket_compass_tables 90 (by decide) (by decide)).2.2.1⟩

/-- C10: for EVERY integer bearing — negative or at least 360 included —
the floor-division-and-mod bucket lands in [0, 8), both table lookups
succeed, and normalization of an otherwise well-formed document never fails
on the bearing. -/
theorem c10_bucket_total_for_all_bearings (d : ℤ) :
    0 ≤ bucket d ∧ bucket d < 8 ∧
    (∃ icon, pyIndex windDirectionIcons (bucket d) = .ok icon) ∧
    (∃ txt, pyIndex windDirectionTexts (bucket d) = .ok txt) ∧
    (∃ st, get_weather Unit.metric (some { goodDoc with wind_deg := d })
      initState = .ok st) := by
  obtain ⟨hi, hicon⟩ := pyIndex_bucket_ok windDirectionIcons d rfl
  obtain ⟨ht, htext⟩ := pyIndex_bucket_ok windDirectionTexts d rfl
  refine ⟨bucket_nonneg d, bucket_lt_eight d, ⟨_, hicon⟩, ⟨_, htext⟩, ?_⟩
  simp only [get_weather]
  rw [if_pos (show ({ goodDoc with wind_deg := d } : RawDoc).cod = 200 from rfl)]
  simp only [show ({ goodDoc with wind_deg := d } : RawDoc).wind_deg = d from rfl,
    hicon, htext]
  exact ⟨_, rfl⟩

/-- C4 counterexample: at the claim's own concrete input — a successful
cycle with temperature 5 in Metric units — no class "cold" (indeed no style
class at all) is assigned: the success emission is the bare text/tooltip
JSON object, whose content contains neither "cold" nor "class". -/
theorem c4_no_style_class_assigned :
    get_weather Unit.metric (some goodDoc) initState =
      .ok { error := none, snap := some snapGood } ∧
    printWeather { error := none, snap := some snapGood } false "{temperature}" "{tooltip}" =
      .ok ["\x7b\"text\": \"5\\u00b0C\", \"tooltip\": \"\x7btooltip\x7d\"\x7d"] ∧
    occursIn "cold".data "\x7b\"text\": \"5\\u00b0C\", \"tooltip\": \"\x7btooltip\x7d\"\x7d".data = false ∧
    occursIn "class".data "\x7b\"text\": \"5\\u00b0C\", \"tooltip\": \"\x7btooltip\x7d\"\x7d".data = false := by
  exact ⟨rfl, rfl, by decide, by decide⟩

/-- C4 amended: the renderer derives no style class — a successful cycle's
output is exactly the two rendered template strings (text mode: the two
lines; json mode: the text/tooltip object), with no temperature-threshold
class and no third component. -/
theorem c4_amended_success_output_is_text_tooltip_only (s : Snapshot)
    (tf xf : String) :
    printWeather { error := none, snap := some s } true tf xf =
      .ok [renderTemplate s tf ++ "\n" ++ renderTemplate s xf] ∧
    printWeather { error := none, snap := some s } false tf xf =
      .ok [jsonDumpsTextTooltip (renderTemplate s tf) (renderTemplate s xf)] :=
  ⟨rfl, rfl⟩

/-- C7: the scenario — normalizing a document with temperature 5 (a JSON
int) under Metric and rendering "{temperature}" yields exactly "5°C" — and
the structural facts: every numeric placeholder value is the rounded number
with the unit symbol appended directly (no separating space in the
concatenation), and the Kelvin symbol itself starts with a leading space,
unlike "°C"/"°F". -/
theorem c7_temperature_unit_rendering :
    get_weather Unit.metric (some goodDoc) initState =
      .ok { error := none, snap := some snapGood } ∧
    snapGood.temperature = .int 5 ∧
    snapGood.temperature_unit = "°C" ∧
    renderTemplate snapGood "{temperature}" = "5°C" ∧
    (∀ s : Snapshot,
      (format_options s).lookup "{temperature}" =
        some (showPyNum (pyRound1 s.temperature) ++ s.temperature_unit) ∧
      (format_options s).lookup "{temperatureFeel}" =
        some (showPyNum (pyRound1 s.temperature_feel) ++ s.temperature_unit) ∧
      (format_options s).lookup "{temperatureMin}" =
        some (showPyNum (pyRound1 s.temperature_min) ++ s.temperature_unit) ∧
      (format_options s).lookup "{temperatureMax}" =
        some (showPyNum (pyRound1 s.temperature_max) ++ s.temperature_unit) ∧
      (format_options s).lookup "{humidity}" =
        some (showPyNum (pyRound1 s.weather_humid) ++ s.weather_unit) ∧
      (format_options s).lookup "{windSpeed}" =
        some (toString (pyRound0 s.wind_speed) ++ s.wind_unit)) ∧
    temperatureUnitOf Unit.metric = "°C" ∧
    temperatureUnitOf Unit.imperial = "°F" ∧
    temperatureUnitOf Unit.standard = " K" ∧
    " K".take 1 = " " ∧ "°C".take 1 ≠ " " ∧ "°F".take 1 ≠ " " := by
  refine ⟨rfl, rfl, rfl, rfl, fun s => ⟨rfl, rfl, rfl, rfl, rfl, rfl⟩,
    rfl, rfl, rfl, by decide, by decide, by decide⟩

/-- C8: a template containing no recognized placeholder token renders
unchanged, and each single-token substitution is literal-string replacement
applied to all occurrences: the scan decomposes the text into segments free
of the token which rejoined by the token recover the text, and the
replacement result is those segments rejoined by the replacement value. -/
theorem c8_render_id_and_literal_replacement :
    (∀ (s : Snapshot) (tpl : String),
      (∀ p ∈ format_options s, occursIn p.1.data tpl.data = false) →
      renderTemplate s tpl = tpl) ∧
    (∀ old new s : List Char, old ≠ [] →
      replaceAll old new s = joinWith new (pySplit old s) ∧
      joinWith old (pySplit old s) = s ∧
      ∀ seg ∈ pySplit old s, occursIn old seg = false) := by
  constructor
  · intro s tpl h
    exact foldl_replace_id _ _ h
  · intro old new s hne
    exact ⟨replaceAll_eq_joinWith old new s hne, joinWith_pySplit old s hne,
      pySplit_no_occ old s hne⟩

/-- C8 witness: the token-free template "plain text" renders unchanged on a
concrete snapshot, and a concrete replacement with two occurrences
decomposes as stated. -/
theorem c8_render_id_and_literal_replacement_witness :
    renderTemplate snapGood "plain text" = "plain text" ∧
    replaceAll "ab".data "X".data "zababz".data =
      joinWith "X".data (pySplit "ab".data "zababz".data) :=
  ⟨c8_render_id_and_literal_replacement.1 snapGood "plain text" (by decide),
   (c8_render_id_and_literal_replacement.2 "ab".data "X".data "zababz".data
     (by decide)).1⟩

/-- The first fourteen entries of `format_options` (everything before the
windGust entry), named so the final replacement step can be reasoned about
separately. -/
def formatOptionsPre (s : Snapshot) : List (String × String) :=
  [("{city}", s.city),
   ("{humidity}", showPyNum (pyRound1 s.weather_humid) ++ s.weather_unit),
   ("{temperature}", showPyNum (pyRound1 s.temperature) ++ s.temperature_unit),
   ("{temperatureFeel}", showPyNum (pyRound1 s.temperature_feel) ++ s.temperature_unit),
   ("{temperatureMin}", showPyNum (pyRound1 s.temperature_min) ++ s.temperature_unit),
   ("{temperatureMax}", showPyNum (pyRound1 s.temperature_max) ++ s.temperature_unit),
   ("{time}", s.datetime),
   ("{weather}", s.weather),
   ("{weatherIcon}", s.weather_icon),
   ("{weatherDesc}", pyTitle s.weather_desc),
   ("{windDirection}", toString s.wind_direction),
   ("{windDirectionIcon}", s.wind_direction_icon),
   ("{windDirectionText}", s.wind_direction_text),
   ("{windSpeed}", toString (pyRound0 s.wind_speed) ++ s.wind_unit)]

/-- Rendering the bare windGust template on a gust-free snapshot: the first
fourteen tokens do not occur in `"{windGust}"`, and the final step replaces
the token by the empty string. -/
theorem renderTemplate_windGust (s : Snapshot) (h : s.wind_gust = none) :
    renderTemplate s "{windGust}" = "" := by
  have hpre : ∀ p ∈ formatOptionsPre s, occursIn p.1.data "{windGust}".data = false := by
    intro p hp
    have hkey : p.1 ∈ (formatOptionsPre s).map Prod.fst := List.mem_map_of_mem Prod.fst hp
    have hkeys : (formatOptionsPre s).map Prod.fst =
        ["{city}", "{humidity}", "{temperature}", "{temperatureFeel}",
         "{temperatureMin}", "{temperatureMax}", "{time}", "{weather}",
         "{weatherIcon}", "{weatherDesc}", "{windDirection}",
         "{windDirectionIcon}", "{windDirectionText}", "{windSpeed}"] := rfl
    rw [hkeys] at hkey
    simp only [List.mem_cons, List.not_mem_nil, or_false] at hkey
    rcases hkey with h | h | h | h | h | h | h | h | h | h | h | h | h | h <;>
      rw [h] <;> decide
  have hsplit : format_options s = formatOptionsPre s ++ [("{windGust}", "")] := by
    simp only [format_options, formatOptionsPre, h]
    rfl
  rw [renderTemplate, hsplit, List.foldl_append, foldl_replace_id _ _ hpre]
  rfl

/-- C9: for every snapshot whose payload omitted the wind gust, the windGust
placeholder value is the empty string, and rendering the template
"{windGust}" yields "" — never the literal "None". -/
theorem c9_absent_gust_renders_empty (s : Snapshot) (h : s.wind_gust = none) :
    (format_options s).lookup "{windGust}" = some "" ∧
    renderTemplate s "{windGust}" = "" ∧
    renderTemplate s "{windGust}" ≠ "None" := by
  have h2 := renderTemplate_windGust s h
  have h1 : (format_options s).lookup "{windGust}" = some "" := by
    simp only [format_options, h]
    rfl
  refine ⟨h1, h2, ?_⟩
  rw [h2]
  decide

/-- C9 witness at the concrete gust-free snapshot. -/
theorem c9_absent_gust_renders_empty_witness :
    renderTemplate snapGood "{windGust}" = "" :=
  (c9_absent_gust_renders_empty snapGood rfl).2.1

end weather
